import Mathlib

/-!
The envd build-graph composer: `pkg/lang/ir/python.go` and `pkg/lang/ir/shell.go`

A shallow embedding of the Python build-graph compiler of envd.  The compiler
does no filesystem work itself: it builds a term of buildkit's `llb` builder
(`File`, `Run`, `Diff`, `Merge`, ...).  The embedding records every operation the
builder creates as a constructor of `State`, with the arguments the Go code passes,
so that the shape of the build plan can be stated and proved.  `llb.Diff` and
`llb.Merge` are embedded as `llbDiff` and `llbMerge`, which create a `diff` or
`merge` node only where the builder creates a `DiffOp` or `MergeOp`.

Go functions returning `(llb.State, error)` are embedded as functions into
`State × Option Error`; `none` is Go's `nil` error and `State.empty` is the zero
value `llb.State{}`.
-/

namespace Envd

/-! ## Data model -/

/-- Go `error` values: an error raised by a collaborator, or `errors.Wrap(err, msg)`. -/
inductive Error where
  | raised (msg : String)
  | wrap (cause : Error) (msg : String)
deriving DecidableEq, Repr

/-- The `llb.WithUIDGID(uid, gid)` option of a file action. -/
structure Owner where
  uid : Int
  gid : Int
deriving DecidableEq, Repr

/-- File actions passed to `State.File`: `llb.Mkdir`, `llb.Mkfile`, and `llb.Copy` from
`llb.Local(dir)`. `parents` is `llb.WithParents`, `createDestPath` is
`CopyInfo.CreateDestPath`. -/
inductive FileAction where
  | mkdir (path : String) (mode : Nat) (parents : Bool) (owner : Option Owner)
  | mkfile (path : String) (mode : Nat) (content : String) (owner : Option Owner)
  | copyLocal (localDir src dest : String) (createDestPath : Bool) (owner : Option Owner)
deriving DecidableEq, Repr

/-- Options of `ExecState.AddMount(target, source, AsPersistentCacheDir(id, sharing),
SourcePath(sourcePath))`; `shared` is `llb.CacheMountShared`. -/
structure MountSpec where
  target : String
  cacheID : String
  shared : Bool
  sourcePath : String
deriving DecidableEq, Repr

/-- The `llb.State` terms the compiler builds. `empty` is a state without output
(`llb.State{}`, `llb.Scratch()`), `source` a pre-provisioned base, `file` is
`parent.File(action, WithCustomName)`, `user` is `llb.User(name)(parent)`, `run` is
`parent.Run(llb.Shlex(cmd), WithCustomName).Root()` with the mounts added to the exec,
`diff` is the `DiffOp` and `merge` the `MergeOp` that `llb.Diff` and `llb.Merge` create
(see `llbDiff` and `llbMerge`). -/
inductive State where
  | empty
  | source (ref : String)
  | file (parent : State) (action : FileAction) (customName : Option String)
  | user (parent : State) (name : String)
  | run (parent : State) (cmd : String) (customName : String)
      (mounts : List (MountSpec × State))
  | diff (lower upper : State) (customName : String)
  | merge (inputs : List State) (customName : String)

instance : Inhabited State := ⟨State.empty⟩

/-- Whether `State.Output()` is non-nil: the zero state has no output, `llb.User` only sets
a value on the state and keeps its output, every operation has one. -/
def State.hasOutput : State → Bool
  | .empty => false
  | .user parent _ => parent.hasOutput
  | _ => true

/-- The builder `llb.Diff(lower, upper, WithCustomName(customName))` of buildkit: the diff
of two states without output is scratch, the diff from a state without output is the upper
state itself, and otherwise a `DiffOp` is created. -/
def llbDiff (lower upper : State) (customName : String) : State :=
  if lower.hasOutput then State.diff lower upper customName
  else if upper.hasOutput then upper
  else State.empty

/-- The builder `llb.Merge(inputs, WithCustomName(customName))` of buildkit: inputs without
output are filtered out; no input left gives scratch, a single one is returned as it is, and
otherwise a `MergeOp` over the inputs left is created. -/
def llbMerge (inputs : List State) (customName : String) : State :=
  match inputs.filter State.hasOutput with
  | [] => State.empty
  | [input] => input
  | filteredInputs => State.merge filteredInputs customName

/-- The command string of a `Run` node. -/
def State.runCmd? : State → Option String
  | .run _ cmd _ _ => some cmd
  | _ => none

/-- The input list of a `Merge` node (empty for any other node). -/
def State.mergeInputs : State → List State
  | .merge inputs _ => inputs
  | _ => []

/-- The path and content written by a node that is a `Mkfile` file action. -/
def State.written? : State → Option (String × String)
  | .file _ (.mkfile path _ content _) _ => some (path, content)
  | _ => none

/-- Whether the node is a `Merge`. -/
def State.isMerge : State → Bool
  | .merge _ _ => true
  | _ => false

/-- Modelled from the spec: shell preference enum (none, bash, zsh); the declaration of
the `Shell` field and of the constant `shellZSH` is not in these files. -/
inductive ShellKind where
  | shellNone
  | shellBASH
  | shellZSH
deriving DecidableEq, Repr

open ShellKind

/-- Modelled from the spec: the `Graph` configuration (data model of the spec), whose type
declaration is not in these files. `PyPIPackages`, `PyPIIndexURL`, `PyPIExtraIndexURL`,
`Shell`, `uid` and `gid` are the fields the two source files read; the remaining fields are
read only by the helper methods that live outside them. -/
structure Graph where
  SystemPackages : List String
  PyPIPackages : List String
  CondaPackages : List String
  condaEnabled : Bool
  Shell : ShellKind
  PyPIIndexURL : Option String
  PyPIExtraIndexURL : Option String
  sshKey : Option String
  ideExtensions : List String
  notebook : Bool
  uid : Int
  gid : Int
deriving DecidableEq, Repr

/-- Modelled from the spec: `g.CondaEnabled()` reads the conda-enabled flag of the graph;
the method body is not in these files. -/
def Graph.CondaEnabled (g : Graph) : Bool := g.condaEnabled

/-- The methods, constants and collaborators of the repository that `python.go` and
`shell.go` call but that are defined elsewhere: they are parameters of the embedding.
`DownloadOrCache`, `InstallScript` and `ZSHRC` are the methods of `shell.NewManager()`;
`filepathDir` is Go's `filepath.Dir`. -/
structure Helpers where
  compileCondaChannel : Graph → State → State
  compileJupyter : Graph → Option Error
  copySSHKey : Graph → State → State × Option Error
  setCondaENV : Graph → State → State
  compileCondaPackages : Graph → State → State
  compileSystemPackages : Graph → State → State
  compileVSCode : Graph → Option State × Option Error
  CacheID : Graph → String → String
  DownloadOrCache : Bool × Option Error
  InstallScript : String
  ZSHRC : String
  FlagCacheDir : String
  pypiConfigTemplate : String
  pypiIndexFilePath : String
  filepathDir : String → String

/-! ## `fmt.Sprintf` and `strings.Join` on string operands -/

/-- The text `fmt.Sprintf` appends for operands left over after the format is consumed. -/
def sprintfExtra (args : List String) : List Char :=
  ("%!(EXTRA " ++ String.intercalate ", " (args.map fun a => "string=" ++ a) ++ ")").data

/-- Go's `fmt.Sprintf` on a format and string operands, on character lists: `%s` and `%v`
print the next operand, `%%` prints a percent sign, a verb without operand prints
`%!v(MISSING)`, another verb letter prints `%!v(string=operand)`, a trailing `%` prints
`%!(NOVERB)`, and unused operands are reported at the end. Flags, widths and the `q`, `x`,
`X` verbs do not occur in these files and are not modelled. -/
def sprintfAux : List Char → List String → List Char
  | [], [] => []
  | [], a :: args => sprintfExtra (a :: args)
  | c :: rest, args =>
    if c = '%' then
      match rest, args with
      | [], args => "%!(NOVERB)".data ++ sprintfAux [] args
      | v :: rest', [] =>
        if v = '%' then '%' :: sprintfAux rest' []
        else ['%', '!', v] ++ "(MISSING)".data ++ sprintfAux rest' []
      | v :: rest', a :: args' =>
        if v = '%' then '%' :: sprintfAux rest' (a :: args')
        else if v = 's' ∨ v = 'v' then a.data ++ sprintfAux rest' args'
        else ['%', '!', v] ++ "(string=".data ++ a.data ++ [')'] ++ sprintfAux rest' args'
    else c :: sprintfAux rest args

/-- Go's `fmt.Sprintf(format, args...)` for string operands. -/
def sprintf (format : String) (args : List String) : String :=
  ⟨sprintfAux format.data args⟩

/-- Go's `strings.Join(elems, sep)`. -/
def stringsJoin (elems : List String) (sep : String) : String :=
  sep.intercalate elems

/-! ## `python.go` -/

/-- Embedding of `Graph.compilePyPIPackages`: the `strings.Builder` loop is the left fold. -/
def compilePyPIPackages (H : Helpers) (g : Graph) (root : State) : State :=
  if g.PyPIPackages.length = 0 then root
  else
    let cacheDir := "/home/envd/.cache"
    let sb := if g.CondaEnabled then "/opt/conda/bin/conda run -n envd pip install"
      else "pip install --no-warn-script-location"
    let sb := g.PyPIPackages.foldl (fun sb pkg => sb ++ sprintf " %s" [pkg]) sb
    let cmd := sb
    let root := State.user root "envd"
    let cache := State.file root
      (FileAction.mkdir "/cache" 0o755 true (some ⟨g.uid, g.gid⟩))
      (some "[internal] settings pip cache mount permissions")
    State.run root cmd (sprintf "pip install %s" [stringsJoin g.PyPIPackages " "])
      [(⟨cacheDir, H.CacheID g cacheDir, true, "/cache"⟩, cache)]

/-- Embedding of `Graph.compilePyPIIndex` (the debug log lines have no effect on the
result). -/
def compilePyPIIndex (H : Helpers) (g : Graph) (root : State) : State :=
  match g.PyPIIndexURL with
  | some indexURL =>
    let extraIndex := match g.PyPIExtraIndexURL with
      | some extraURL => "extra-index-url=" ++ extraURL
      | none => ""
    let content := sprintf H.pypiConfigTemplate [indexURL, extraIndex]
    let pypiMirror :=
      (State.file root
        (FileAction.mkdir (H.filepathDir H.pypiIndexFilePath) 0o755 true (some ⟨g.uid, g.gid⟩))
        (some "[internal] settings PyPI index")).file
        (FileAction.mkfile H.pypiIndexFilePath 0o644 content (some ⟨g.uid, g.gid⟩))
        (some "[internal] settings PyPI index")
    pypiMirror
  | none => root

/-! ## `shell.go` -/

/-- Embedding of `Graph.compileZSH`. The two `g.Writer.LogZSH` calls emit progress events
only; the second one receives `cached` and nothing else does. -/
def compileZSH (H : Helpers) (g : Graph) (root : State) : State × Option Error :=
  let installPath := "/home/envd/install.sh"
  let zshrcPath := "/home/envd/.zshrc"
  let ohMyZSHPath := "/home/envd/.oh-my-zsh"
  match H.DownloadOrCache with
  | (_, some err) => (State.empty, some (Error.wrap err "failed to download oh-my-zsh"))
  | (_cached, none) =>
    let zshStage :=
      (State.file root
        (FileAction.copyLocal H.FlagCacheDir "oh-my-zsh" ohMyZSHPath true (some ⟨g.uid, g.gid⟩))
        none).file
        (FileAction.mkfile installPath 0o644 H.InstallScript (some ⟨g.uid, g.gid⟩)) none
    let zshrc :=
      (State.run zshStage (sprintf "bash %s" [installPath]) "install oh-my-zsh" []).file
        (FileAction.mkfile zshrcPath 0o644 H.ZSHRC (some ⟨g.uid, g.gid⟩)) none
    (zshrc, none)

/-- Embedding of `Graph.compileShell`. -/
def compileShell (H : Helpers) (g : Graph) (root : State) : State × Option Error :=
  if g.Shell = shellZSH then compileZSH H g root
  else (root, none)

/-- Embedding of `Graph.compilePython`. -/
def compilePython (H : Helpers) (g : Graph) (aptStage : State) : State × Option Error :=
  let condaChanelStage := H.compileCondaChannel g aptStage
  let pypiMirrorStage := compilePyPIIndex H g condaChanelStage
  match H.compileJupyter g with
  | some err => (State.empty, some (Error.wrap err "failed to compile jupyter"))
  | none =>
    let builtinSystemStage := pypiMirrorStage
    match H.copySSHKey g builtinSystemStage with
    | (_, some err) => (State.empty, some (Error.wrap err "failed to copy ssh keys"))
    | (sshStage, none) =>
      let diffSSHStage := llbDiff builtinSystemStage sshStage "install ssh keys"
      match compileShell H g builtinSystemStage with
      | (_, some err) => (State.empty, some (Error.wrap err "failed to compile shell"))
      | (shellStage, none) =>
        let condaEnvStage := H.setCondaENV g shellStage
        let condaStage := llbDiff builtinSystemStage
          (H.compileCondaPackages g condaEnvStage) "install conda packages"
        let pypiStage := llbDiff condaEnvStage
          (compilePyPIPackages H g condaEnvStage) "install PyPI packages"
        let systemStage := llbDiff builtinSystemStage
          (H.compileSystemPackages g builtinSystemStage) "install system packages"
        match H.compileVSCode g with
        | (_, some err) => (State.empty, some (Error.wrap err "failed to get vscode plugins"))
        | (some vscodeStage, none) =>
          (llbMerge [builtinSystemStage, systemStage, condaStage,
            diffSSHStage, pypiStage, vscodeStage] "merging all components into one", none)
        | (none, none) =>
          (llbMerge [builtinSystemStage, systemStage, condaStage,
            diffSSHStage, pypiStage] "merging all components into one", none)

/-! ## Specification-side definitions -/

/-- The trailing package text in the words of the specification: each package name preceded
by one space, in declared order. -/
def packageText : List String → String
  | [] => ""
  | pkg :: rest => " " ++ pkg ++ packageText rest

/-- The shared ancestor `indexStage` of `compilePython`: the output of `compilePyPIIndex`
on the conda-channel stage. -/
def indexStage (H : Helpers) (g : Graph) (aptStage : State) : State :=
  compilePyPIIndex H g (H.compileCondaChannel g aptStage)

/-- Modelled from the spec: the operations of the execution backend that leave a trace in
a filesystem state (a base, a file action, a command run). -/
inductive Op where
  | base (ref : String)
  | file (action : FileAction)
  | exec (cmd : String)
deriving DecidableEq, Repr

/-- Modelled from the spec: the Diff/Merge engine contract, an external capability. A stage
stands for the chain of operations that builds it; `Diff(ancestor, descendant)` is the
delta between the two, the operations of the descendant that come after those of the
ancestor it is derived from; `Merge` overlays its inputs in order on the first one.
`llb.User` and cache mounts change no file of the state. -/
def State.ops : State → List Op
  | .empty => []
  | .source ref => [Op.base ref]
  | .file parent action _ => parent.ops ++ [Op.file action]
  | .user parent _ => parent.ops
  | .run parent cmd _ _ => parent.ops ++ [Op.exec cmd]
  | .diff lower upper _ => upper.ops.drop lower.ops.length
  | .merge [] _ => []
  | .merge (x :: xs) n => x.ops ++ (State.merge xs n).ops

/-- Modelled from the spec: the filesystem delta between an ancestor stage and a
descendant stage, the content of `Diff(lower, upper)`. -/
def delta (lower upper : State) : List Op :=
  upper.ops.drop lower.ops.length

/-- The four operations `compileZSH` applies on top of its input stage, in order. -/
def zshOps (H : Helpers) (g : Graph) : List Op :=
  [Op.file (FileAction.copyLocal H.FlagCacheDir "oh-my-zsh" "/home/envd/.oh-my-zsh" true
      (some ⟨g.uid, g.gid⟩)),
   Op.file (FileAction.mkfile "/home/envd/install.sh" 0o644 H.InstallScript
      (some ⟨g.uid, g.gid⟩)),
   Op.exec "bash /home/envd/install.sh",
   Op.file (FileAction.mkfile "/home/envd/.zshrc" 0o644 H.ZSHRC (some ⟨g.uid, g.gid⟩))]

/-! ## Concrete inputs used by the examples -/

/-- A collaborator set in which every helper returns its input unchanged, nothing fails and
no IDE-extension stage is produced. -/
def quietHelpers : Helpers where
  compileCondaChannel := fun _ s => s
  compileJupyter := fun _ => none
  copySSHKey := fun _ s => (s, none)
  setCondaENV := fun _ s => s
  compileCondaPackages := fun _ s => s
  compileSystemPackages := fun _ s => s
  compileVSCode := fun _ => (none, none)
  CacheID := fun _ p => "envd" ++ p
  DownloadOrCache := (false, none)
  InstallScript := "install"
  ZSHRC := "zshrc"
  FlagCacheDir := "cache-dir"
  pypiConfigTemplate := "[global]\nindex-url=%s\n%s\n"
  pypiIndexFilePath := "/home/envd/.config/pip/pip.conf"
  filepathDir := fun _ => "/home/envd/.config/pip"

/-- A graph with no optional component and empty package lists. -/
def bareGraph : Graph where
  SystemPackages := []
  PyPIPackages := []
  CondaPackages := []
  condaEnabled := false
  Shell := shellNone
  PyPIIndexURL := none
  PyPIExtraIndexURL := none
  sshKey := none
  ideExtensions := []
  notebook := false
  uid := 1000
  gid := 1000

/-- The graph of the concrete scenario: one PyPI package, conda disabled, no shell. -/
def flaskGraph : Graph := { bareGraph with PyPIPackages := ["flask"] }

/-- The pre-provisioned base stage handed to `compilePython`. -/
def baseStage : State := State.source "apt"

/-- A graph with an extra-index URL but no primary index URL. -/
def extraOnlyGraph : Graph :=
  { bareGraph with PyPIExtraIndexURL := some "https://extra.example/simple" }

/-- A graph with a primary index URL and no extra-index URL. -/
def mirrorGraph : Graph :=
  { bareGraph with PyPIIndexURL := some "https://mirror.example/simple" }

/-- A graph with both a primary index URL and an extra-index URL. -/
def mirrorExtraGraph : Graph :=
  { mirrorGraph with PyPIExtraIndexURL := some "https://extra.example/simple" }

/-- A collaborator set whose shell-framework download fails. -/
def failingHelpers : Helpers :=
  { quietHelpers with DownloadOrCache := (false, some (Error.raised "download failed")) }

/-- A collaborator set whose IDE-extension resolver returns a stage without output. -/
def scratchResolverHelpers : Helpers :=
  { quietHelpers with compileVSCode := fun _ => (some State.empty, none) }

/-- A graph that asks for zsh. -/
def zshGraph : Graph := { bareGraph with Shell := shellZSH }

/-- The scenario graph with conda enabled. -/
def condaFlaskGraph : Graph := { flaskGraph with condaEnabled := true }

/-! ## `fmt.Sprintf` lemmas -/

theorem sprintfAux_verb_s (rest : List Char) (a : String) (args : List String) :
    sprintfAux ('%' :: 's' :: rest) (a :: args) = a.data ++ sprintfAux rest args := by
  simp [sprintfAux]

theorem sprintfAux_literal (c : Char) (hc : c ≠ '%') (rest : List Char) (args : List String) :
    sprintfAux (c :: rest) args = c :: sprintfAux rest args := by
  cases rest <;> cases args <;> simp [sprintfAux, hc]

theorem sprintfAux_plain (t : List Char) (ht : '%' ∉ t) (rest : List Char)
    (args : List String) : sprintfAux (t ++ rest) args = t ++ sprintfAux rest args := by
  induction t with
  | nil => rfl
  | cons c t ih =>
    have hc : c ≠ '%' := fun h => ht (by simp [h])
    have ht' : '%' ∉ t := fun h => ht (by simp [h])
    simp [sprintfAux_literal c hc, ih ht']

theorem sprintf_space_s (p : String) : sprintf " %s" [p] = " " ++ p := by
  apply String.ext
  have h : " %s".data = [' ', '%', 's'] := rfl
  simp [sprintf, h, sprintfAux]

/-- With a format that has exactly two `%s` verbs and no other percent sign, `sprintf`
substitutes the two operands in place. -/
theorem sprintf_two_slots (pre mid post a b : String) (hpre : '%' ∉ pre.data)
    (hmid : '%' ∉ mid.data) (hpost : '%' ∉ post.data) :
    sprintf (pre ++ "%s" ++ mid ++ "%s" ++ post) [a, b] = pre ++ a ++ mid ++ b ++ post := by
  apply String.ext
  have h : "%s".data = ['%', 's'] := rfl
  have hnil : sprintfAux (post.data ++ []) [] = post.data ++ sprintfAux [] [] :=
    sprintfAux_plain post.data hpost [] []
  simp only [List.append_nil] at hnil
  simp only [sprintf, String.data_append, h, List.append_assoc, List.cons_append,
    List.nil_append]
  rw [sprintfAux_plain _ hpre, sprintfAux_verb_s, sprintfAux_plain _ hmid, sprintfAux_verb_s,
    hnil]
  simp [sprintfAux]

/-- The `strings.Builder` loop appends `packageText` to what the builder already holds. -/
theorem builder_loop (pkgs : List String) (init : String) :
    pkgs.foldl (fun sb pkg => sb ++ sprintf " %s" [pkg]) init = init ++ packageText pkgs := by
  induction pkgs generalizing init with
  | nil => simp [packageText]
  | cons p ps ih =>
    rw [List.foldl_cons, ih, sprintf_space_s, packageText]
    simp only [String.append_assoc]

/-! ## The PyPI install command (C1, C2) -/

/-- C1: with conda disabled and a non-empty PyPI package list, the command string that
`compilePyPIPackages` runs is exactly `pip install --no-warn-script-location` followed by
each package name preceded by one space, in declared order. -/
theorem compilePyPIPackages_pip_command (H : Helpers) (g : Graph) (root : State)
    (hconda : g.CondaEnabled = false) (hne : g.PyPIPackages ≠ []) :
    (compilePyPIPackages H g root).runCmd? =
      some ("pip install --no-warn-script-location" ++ packageText g.PyPIPackages) := by
  have hlen : ¬ g.PyPIPackages.length = 0 := by
    simpa [List.length_eq_zero] using hne
  simp [compilePyPIPackages, hlen, hconda, builder_loop, State.runCmd?]

theorem compilePyPIPackages_pip_command_witness :
    flaskGraph.CondaEnabled = false ∧ flaskGraph.PyPIPackages ≠ [] ∧
    (compilePyPIPackages quietHelpers flaskGraph baseStage).runCmd? =
      some "pip install --no-warn-script-location flask" :=
  ⟨by decide, by decide,
    (compilePyPIPackages_pip_command quietHelpers flaskGraph baseStage
      (by decide) (by decide)).trans (by decide)⟩

/-- The declared order is kept: `["numpy", "pandas"]` gives a command ending in
`numpy pandas`. -/
theorem compilePyPIPackages_numpy_pandas :
    (compilePyPIPackages quietHelpers { bareGraph with PyPIPackages := ["numpy", "pandas"] }
      baseStage).runCmd? = some "pip install --no-warn-script-location numpy pandas" := by
  decide

/-- C2: for the same non-empty PyPI package list, the command built with conda enabled and
the one built with conda disabled differ only in their head: both end in the same trailing
package text. -/
theorem compilePyPIPackages_conda_head (H : Helpers) (g₁ g₂ : Graph) (r₁ r₂ : State)
    (hpk : g₁.PyPIPackages = g₂.PyPIPackages) (hne : g₁.PyPIPackages ≠ [])
    (h₁ : g₁.CondaEnabled = true) (h₂ : g₂.CondaEnabled = false) :
    (compilePyPIPackages H g₁ r₁).runCmd? =
      some ("/opt/conda/bin/conda run -n envd pip install" ++ packageText g₁.PyPIPackages) ∧
    (compilePyPIPackages H g₂ r₂).runCmd? =
      some ("pip install --no-warn-script-location" ++ packageText g₁.PyPIPackages) := by
  have hlen₁ : ¬ g₁.PyPIPackages.length = 0 := by
    simpa [List.length_eq_zero] using hne
  have hlen₂ : ¬ g₂.PyPIPackages.length = 0 := by
    rw [← hpk]; exact hlen₁
  constructor
  · simp [compilePyPIPackages, hlen₁, h₁, builder_loop, State.runCmd?]
  · simp [compilePyPIPackages, hlen₂, h₂, builder_loop, State.runCmd?, hpk]

theorem compilePyPIPackages_conda_head_witness :
    (compilePyPIPackages quietHelpers condaFlaskGraph baseStage).runCmd? =
      some "/opt/conda/bin/conda run -n envd pip install flask" ∧
    (compilePyPIPackages quietHelpers flaskGraph baseStage).runCmd? =
      some "pip install --no-warn-script-location flask" :=
  have h := compilePyPIPackages_conda_head quietHelpers condaFlaskGraph flaskGraph
    baseStage baseStage (by decide) (by decide) (by decide) (by decide)
  ⟨h.1.trans (by decide), h.2.trans (by decide)⟩

/-! ## The package-index configuration (C8, C9) -/

/-- C8: when the primary package-index URL is absent, `compilePyPIIndex` returns exactly
the stage it was given, with no directory creation and no file write added, whether or not
an extra-index URL is set. -/
theorem compilePyPIIndex_absent_url (H : Helpers) (g : Graph) (root : State)
    (h : g.PyPIIndexURL = none) : compilePyPIIndex H g root = root := by
  simp [compilePyPIIndex, h]

theorem compilePyPIIndex_absent_url_witness :
    extraOnlyGraph.PyPIExtraIndexURL = some "https://extra.example/simple" ∧
    compilePyPIIndex quietHelpers extraOnlyGraph baseStage = baseStage :=
  ⟨rfl, compilePyPIIndex_absent_url quietHelpers extraOnlyGraph baseStage rfl⟩

/-- C9: with a primary index URL, the content `compilePyPIIndex` writes to the index
configuration file is the template filled with the primary URL and, in the extra-index
slot, the empty string when no extra-index URL is configured and `extra-index-url=`
followed by the URL when one is; for a template with exactly two `%s` slots the first
content is the template text with only the primary URL filled in. -/
theorem compilePyPIIndex_content (H : Helpers) (g : Graph) (root : State) (url : String)
    (hurl : g.PyPIIndexURL = some url) :
    (g.PyPIExtraIndexURL = none →
      (compilePyPIIndex H g root).written? =
        some (H.pypiIndexFilePath, sprintf H.pypiConfigTemplate [url, ""])) ∧
    (∀ u, g.PyPIExtraIndexURL = some u →
      (compilePyPIIndex H g root).written? =
        some (H.pypiIndexFilePath, sprintf H.pypiConfigTemplate [url, "extra-index-url=" ++ u])) ∧
    (∀ pre mid post : String, '%' ∉ pre.data → '%' ∉ mid.data → '%' ∉ post.data →
      H.pypiConfigTemplate = pre ++ "%s" ++ mid ++ "%s" ++ post →
      g.PyPIExtraIndexURL = none →
      (compilePyPIIndex H g root).written? =
        some (H.pypiIndexFilePath, pre ++ url ++ mid ++ post)) := by
  refine ⟨?_, ?_, ?_⟩
  · intro hx
    simp [compilePyPIIndex, hurl, hx, State.written?]
  · intro u hx
    simp [compilePyPIIndex, hurl, hx, State.written?]
  · intro pre mid post hpre hmid hpost htmpl hx
    have hs := sprintf_two_slots pre mid post url "" hpre hmid hpost
    simp only [String.append_empty] at hs
    simp [compilePyPIIndex, hurl, hx, State.written?, htmpl, hs]

theorem compilePyPIIndex_content_witness :
    (compilePyPIIndex quietHelpers mirrorGraph baseStage).written? =
      some ("/home/envd/.config/pip/pip.conf",
        "[global]\nindex-url=https://mirror.example/simple\n\n") ∧
    (compilePyPIIndex quietHelpers mirrorExtraGraph baseStage).written? =
      some ("/home/envd/.config/pip/pip.conf",
        "[global]\nindex-url=https://mirror.example/simple\n" ++
        "extra-index-url=https://extra.example/simple\n") ∧
    (compilePyPIIndex quietHelpers mirrorGraph baseStage).written? =
      some ("/home/envd/.config/pip/pip.conf",
        "[global]\nindex-url=" ++ "https://mirror.example/simple" ++ "\n" ++ "\n") :=
  have h := compilePyPIIndex_content quietHelpers mirrorGraph baseStage
    "https://mirror.example/simple" rfl
  have hx := compilePyPIIndex_content quietHelpers mirrorExtraGraph baseStage
    "https://mirror.example/simple" rfl
  ⟨(h.1 rfl).trans (by decide),
   (hx.2.1 "https://extra.example/simple" rfl).trans (by decide),
   h.2.2 "[global]\nindex-url=" "\n" "\n" (by decide) (by decide) (by decide) (by decide) rfl⟩

/-! ## The shell framework (C10) -/

/-- C10: for shell = zsh, `compileShell` is `compileZSH`; whenever `DownloadOrCache`
succeeds the stage returned is the input stage followed by the framework copy, the
install-script write, one run of `bash /home/envd/install.sh` and the run-control write,
whatever `cacheHit` was reported; and `compileZSH` fails exactly when `DownloadOrCache`
fails. -/
theorem compileZSH_stage (H : Helpers) (g : Graph) (root : State)
    (hz : g.Shell = shellZSH) :
    compileShell H g root = compileZSH H g root ∧
    (∀ cacheHit, H.DownloadOrCache = (cacheHit, none) →
      compileZSH H g root =
        ((((root.file
              (FileAction.copyLocal H.FlagCacheDir "oh-my-zsh" "/home/envd/.oh-my-zsh" true
                (some ⟨g.uid, g.gid⟩)) none).file
            (FileAction.mkfile "/home/envd/install.sh" 0o644 H.InstallScript
              (some ⟨g.uid, g.gid⟩)) none).run
          "bash /home/envd/install.sh" "install oh-my-zsh" []).file
          (FileAction.mkfile "/home/envd/.zshrc" 0o644 H.ZSHRC (some ⟨g.uid, g.gid⟩)) none,
          none)) ∧
    (∀ hit₁ hit₂,
      compileZSH { H with DownloadOrCache := (hit₁, none) } g root =
        compileZSH { H with DownloadOrCache := (hit₂, none) } g root) ∧
    ((compileZSH H g root).2 ≠ none ↔ H.DownloadOrCache.2 ≠ none) := by
  have hcmd : sprintf "bash %s" ["/home/envd/install.sh"] = "bash /home/envd/install.sh" := by
    decide
  refine ⟨?_, ?_, ?_, ?_⟩
  · simp [compileShell, hz]
  · intro cacheHit hd
    simp [compileZSH, hd, hcmd]
  · intro hit₁ hit₂
    simp [compileZSH]
  · rcases hd : H.DownloadOrCache with ⟨cacheHit, _ | err⟩ <;> simp [compileZSH, hd]

theorem compileZSH_stage_witness :
    zshGraph.Shell = shellZSH ∧
    (compileShell quietHelpers zshGraph baseStage).1.runCmd? = none ∧
    (compileShell quietHelpers zshGraph baseStage).1.written? =
      some ("/home/envd/.zshrc", "zshrc") ∧
    (compileZSH quietHelpers zshGraph baseStage).2 = none :=
  have h := compileZSH_stage quietHelpers zshGraph baseStage rfl
  ⟨rfl, by rw [h.1, h.2.1 false rfl]; rfl, by rw [h.1, h.2.1 false rfl]; rfl,
    by rw [h.2.1 false rfl]⟩

/-! ## The builders `llb.Diff` and `llb.Merge` -/

theorem llbDiff_of_output {lower : State} (h : lower.hasOutput = true) (upper : State)
    (n : String) : llbDiff lower upper n = State.diff lower upper n := by
  simp [llbDiff, h]

theorem hasOutput_llbDiff {lower : State} (h : lower.hasOutput = true) (upper : State)
    (n : String) : (llbDiff lower upper n).hasOutput = true := by
  simp [llbDiff, h, State.hasOutput]

/-- With at least two inputs that all have an output, `llb.Merge` creates the `MergeOp` over
exactly its inputs. -/
theorem llbMerge_of_output (a b : State) (rest : List State) (n : String)
    (ha : a.hasOutput = true) (hb : b.hasOutput = true)
    (hrest : ∀ x ∈ rest, x.hasOutput = true) :
    llbMerge (a :: b :: rest) n = State.merge (a :: b :: rest) n := by
  have hf : (a :: b :: rest).filter State.hasOutput = a :: b :: rest := by
    simp [List.filter_cons, ha, hb, List.filter_eq_self.mpr hrest]
  simp [llbMerge, hf]

/-! ## The merge built by `compilePython` (C3, C4, C6) -/

/-- What `compilePython` returns, by cases on the four fallible steps: the first failing step
gives the empty state and its wrapped error; when none fails the result is `llb.Merge`
called on the five stages, and on the IDE-extension stage when there is one. -/
theorem compilePython_cases (H : Helpers) (g : Graph) (aptStage : State) :
    (∃ err, (H.compileJupyter g = some err ∨
          (H.copySSHKey g (indexStage H g aptStage)).2 = some err ∨
          (compileShell H g (indexStage H g aptStage)).2 = some err ∨
          (H.compileVSCode g).2 = some err) ∧
        ∃ msg, compilePython H g aptStage = (State.empty, some (Error.wrap err msg))) ∨
    (H.compileJupyter g = none ∧
      ∃ sshStage shellStage vscodeStage,
        H.copySSHKey g (indexStage H g aptStage) = (sshStage, none) ∧
        compileShell H g (indexStage H g aptStage) = (shellStage, none) ∧
        H.compileVSCode g = (vscodeStage, none) ∧
        compilePython H g aptStage =
          (llbMerge
            ([indexStage H g aptStage,
              llbDiff (indexStage H g aptStage)
                (H.compileSystemPackages g (indexStage H g aptStage)) "install system packages",
              llbDiff (indexStage H g aptStage)
                (H.compileCondaPackages g (H.setCondaENV g shellStage)) "install conda packages",
              llbDiff (indexStage H g aptStage) sshStage "install ssh keys",
              llbDiff (H.setCondaENV g shellStage)
                (compilePyPIPackages H g (H.setCondaENV g shellStage)) "install PyPI packages"]
              ++ vscodeStage.toList)
            "merging all components into one", none)) := by
  cases hj : H.compileJupyter g with
  | some err =>
    exact Or.inl ⟨err, Or.inl rfl, "failed to compile jupyter", by simp [compilePython, hj]⟩
  | none =>
    rcases hs : H.copySSHKey g (indexStage H g aptStage) with ⟨sshStage, _ | err⟩
    · rcases hsh : compileShell H g (indexStage H g aptStage) with ⟨shellStage, _ | err⟩
      · rcases hv : H.compileVSCode g with ⟨_ | vscodeStage, _ | err⟩
        · refine Or.inr ⟨rfl, sshStage, shellStage, none, rfl, rfl, rfl, ?_⟩
          simp only [indexStage] at hs hsh ⊢
          simp [compilePython, hj, hs, hsh, hv]
        · refine Or.inl ⟨err, Or.inr (Or.inr (Or.inr rfl)), "failed to get vscode plugins", ?_⟩
          simp only [indexStage] at hs hsh ⊢
          simp [compilePython, hj, hs, hsh, hv]
        · refine Or.inr ⟨rfl, sshStage, shellStage, some vscodeStage, rfl, rfl, rfl, ?_⟩
          simp only [indexStage] at hs hsh ⊢
          simp [compilePython, hj, hs, hsh, hv]
        · refine Or.inl ⟨err, Or.inr (Or.inr (Or.inr rfl)), "failed to get vscode plugins", ?_⟩
          simp only [indexStage] at hs hsh ⊢
          simp [compilePython, hj, hs, hsh, hv]
      · refine Or.inl ⟨err, Or.inr (Or.inr (Or.inl rfl)), "failed to compile shell", ?_⟩
        simp only [indexStage] at hs hsh ⊢
        simp [compilePython, hj, hs, hsh]
    · refine Or.inl ⟨err, Or.inr (Or.inl rfl), "failed to copy ssh keys", ?_⟩
      simp only [indexStage] at hs ⊢
      simp [compilePython, hj, hs]

/-- The merge `compilePython` returns when `indexStage` and `condaEnvStage` have an output:
all four diffs are `DiffOp`s, and the IDE-extension stage is an input when it has an
output. -/
theorem merge_of_output (H : Helpers) (g : Graph) (idx sshStage condaEnv : State)
    (vscodeStage : Option State) (hidx : idx.hasOutput = true)
    (henv : condaEnv.hasOutput = true) :
    llbMerge
      ([idx,
        llbDiff idx (H.compileSystemPackages g idx) "install system packages",
        llbDiff idx (H.compileCondaPackages g condaEnv) "install conda packages",
        llbDiff idx sshStage "install ssh keys",
        llbDiff condaEnv (compilePyPIPackages H g condaEnv) "install PyPI packages"]
        ++ vscodeStage.toList) "merging all components into one" =
    State.merge
      ([idx,
        State.diff idx (H.compileSystemPackages g idx) "install system packages",
        State.diff idx (H.compileCondaPackages g condaEnv) "install conda packages",
        State.diff idx sshStage "install ssh keys",
        State.diff condaEnv (compilePyPIPackages H g condaEnv) "install PyPI packages"]
        ++ vscodeStage.toList.filter State.hasOutput) "merging all components into one" := by
  rw [llbDiff_of_output hidx, llbDiff_of_output hidx, llbDiff_of_output hidx,
    llbDiff_of_output henv]
  simp [llbMerge, List.filter_cons, hidx, State.hasOutput]

/-- C3, as stated, fails: on a base without output `compilePython` succeeds and returns a
state that is no `Merge` at all, since `llb.Merge` drops the inputs without output. -/
theorem merge_inputs_counterexample :
    ¬ (∀ (H : Helpers) (g : Graph) (aptStage s : State),
        compilePython H g aptStage = (s, none) →
        ∃ sshStage shellStage vscodeStage,
          H.copySSHKey g (indexStage H g aptStage) = (sshStage, none) ∧
          compileShell H g (indexStage H g aptStage) = (shellStage, none) ∧
          H.compileVSCode g = (vscodeStage, none) ∧
          s = State.merge
            ([indexStage H g aptStage,
              llbDiff (indexStage H g aptStage)
                (H.compileSystemPackages g (indexStage H g aptStage)) "install system packages",
              llbDiff (indexStage H g aptStage)
                (H.compileCondaPackages g (H.setCondaENV g shellStage)) "install conda packages",
              llbDiff (indexStage H g aptStage) sshStage "install ssh keys",
              llbDiff (H.setCondaENV g shellStage)
                (compilePyPIPackages H g (H.setCondaENV g shellStage)) "install PyPI packages"]
              ++ vscodeStage.toList)
            "merging all components into one") := by
  intro h
  have hrun : compilePython quietHelpers bareGraph State.empty = (State.empty, none) := rfl
  obtain ⟨_, _, _, _, _, _, hs⟩ := h quietHelpers bareGraph State.empty State.empty hrun
  cases hs

/-- An IDE-extension stage without output is dropped by `llb.Merge`: the merge then has the
five other inputs only. -/
theorem compilePython_scratch_resolver :
    (compilePython scratchResolverHelpers bareGraph baseStage).1.mergeInputs =
      [baseStage,
       State.diff baseStage baseStage "install system packages",
       State.diff baseStage baseStage "install conda packages",
       State.diff baseStage baseStage "install ssh keys",
       State.diff baseStage baseStage "install PyPI packages"] := rfl

/-- C3, amended: whenever `compilePython` succeeds, its result is `llb.Merge` called on
exactly `[indexStage, systemStage, condaStage, diffSSHStage, pypiStage]` in that order, with
the stage of the IDE-extension resolver appended as sixth and last element when it returns
one, `indexStage` always first; when `indexStage`, `condaEnvStage` and the resolver's stage
have an output, that result is one `Merge` whose input list is exactly this list. -/
theorem compilePython_merge_inputs (H : Helpers) (g : Graph) (aptStage s : State)
    (hok : compilePython H g aptStage = (s, none)) :
    ∃ sshStage shellStage vscodeStage,
      H.copySSHKey g (indexStage H g aptStage) = (sshStage, none) ∧
      compileShell H g (indexStage H g aptStage) = (shellStage, none) ∧
      H.compileVSCode g = (vscodeStage, none) ∧
      s = llbMerge
        ([indexStage H g aptStage,
          llbDiff (indexStage H g aptStage)
            (H.compileSystemPackages g (indexStage H g aptStage)) "install system packages",
          llbDiff (indexStage H g aptStage)
            (H.compileCondaPackages g (H.setCondaENV g shellStage)) "install conda packages",
          llbDiff (indexStage H g aptStage) sshStage "install ssh keys",
          llbDiff (H.setCondaENV g shellStage)
            (compilePyPIPackages H g (H.setCondaENV g shellStage)) "install PyPI packages"]
          ++ vscodeStage.toList)
        "merging all components into one" ∧
      ((indexStage H g aptStage).hasOutput = true →
        (H.setCondaENV g shellStage).hasOutput = true →
        (∀ v, vscodeStage = some v → v.hasOutput = true) →
        s = State.merge
          ([indexStage H g aptStage,
            State.diff (indexStage H g aptStage)
              (H.compileSystemPackages g (indexStage H g aptStage)) "install system packages",
            State.diff (indexStage H g aptStage)
              (H.compileCondaPackages g (H.setCondaENV g shellStage)) "install conda packages",
            State.diff (indexStage H g aptStage) sshStage "install ssh keys",
            State.diff (H.setCondaENV g shellStage)
              (compilePyPIPackages H g (H.setCondaENV g shellStage)) "install PyPI packages"]
            ++ vscodeStage.toList)
          "merging all components into one" ∧
        s.mergeInputs.head? = some (indexStage H g aptStage)) := by
  rcases compilePython_cases H g aptStage with ⟨err, _, msg, hfail⟩ | ⟨_, ssh, sh, vs, h1, h2, h3, h4⟩
  · rw [hfail] at hok
    simp at hok
  · rw [h4] at hok
    have hs := (Prod.mk.inj hok).1
    refine ⟨ssh, sh, vs, h1, h2, h3, hs.symm, fun hidx henv hvs => ?_⟩
    have hfilter : vs.toList.filter State.hasOutput = vs.toList := by
      cases vs with
      | none => rfl
      | some v => simp [hvs v rfl]
    rw [← hs, merge_of_output H g _ ssh _ vs hidx henv, hfilter]
    exact ⟨rfl, by simp [State.mergeInputs]⟩

theorem compilePython_merge_inputs_witness :
    (compilePython quietHelpers flaskGraph baseStage).1 =
      State.merge
        [baseStage,
         State.diff baseStage baseStage "install system packages",
         State.diff baseStage baseStage "install conda packages",
         State.diff baseStage baseStage "install ssh keys",
         State.diff baseStage (compilePyPIPackages quietHelpers flaskGraph baseStage)
           "install PyPI packages"]
        "merging all components into one" ∧
    (compilePython quietHelpers flaskGraph baseStage).1.mergeInputs.head? = some baseStage := by
  obtain ⟨ssh, sh, vs, h1, h2, h3, _, h5⟩ :=
    compilePython_merge_inputs quietHelpers flaskGraph baseStage
      (compilePython quietHelpers flaskGraph baseStage).1 rfl
  have hssh : baseStage = ssh := congrArg Prod.fst h1
  have hsh : baseStage = sh := congrArg Prod.fst h2
  have hvs : none = vs := congrArg Prod.fst h3
  subst hssh hsh hvs
  exact h5 rfl rfl (fun v hv => by cases hv)

/-- C4: `compilePython` returns an error if and only if at least one of `compileJupyter`,
`copySSHKey`, `compileShell` and `compileVSCode` fails; in every such case the returned
stage is the empty state and not a `Merge`. -/
theorem compilePython_error_iff (H : Helpers) (g : Graph) (aptStage : State) :
    ((compilePython H g aptStage).2 ≠ none ↔
      (H.compileJupyter g ≠ none ∨
       (H.copySSHKey g (indexStage H g aptStage)).2 ≠ none ∨
       (compileShell H g (indexStage H g aptStage)).2 ≠ none ∨
       (H.compileVSCode g).2 ≠ none)) ∧
    ((compilePython H g aptStage).2 ≠ none →
      (compilePython H g aptStage).1 = State.empty ∧
      (compilePython H g aptStage).1.isMerge = false) := by
  rcases compilePython_cases H g aptStage with
    ⟨err, hwhich, msg, hfail⟩ | ⟨hj, ssh, sh, vs, h1, h2, h3, h4⟩
  · rw [hfail]
    refine ⟨⟨fun _ => ?_, fun _ => by simp⟩, fun _ => ⟨rfl, rfl⟩⟩
    rcases hwhich with h | h | h | h
    · exact Or.inl (by simp [h])
    · exact Or.inr (Or.inl (by simp [h]))
    · exact Or.inr (Or.inr (Or.inl (by simp [h])))
    · exact Or.inr (Or.inr (Or.inr (by simp [h])))
  · rw [h4]
    refine ⟨⟨fun h => by simp at h, fun h => ?_⟩, fun h => by simp at h⟩
    simp [hj, h1, h2, h3] at h

theorem compilePython_error_iff_witness :
    (compilePython failingHelpers zshGraph baseStage).2 ≠ none ∧
    (compilePython failingHelpers zshGraph baseStage).1 = State.empty ∧
    (compilePython failingHelpers zshGraph baseStage).1.isMerge = false :=
  have h := compilePython_error_iff failingHelpers zshGraph baseStage
  have hf : (compilePython failingHelpers zshGraph baseStage).2 ≠ none :=
    h.1.mpr (Or.inr (Or.inr (Or.inl (by decide))))
  ⟨hf, h.2 hf⟩

/-- C6, as stated, fails: for a graph with an empty PyPI package list (and no other
optional component) the merge input list still has a PyPI entry, the empty
`Diff(condaEnvStage, condaEnvStage)`. -/
theorem absent_component_has_entry :
    ¬ (∀ (H : Helpers) (g : Graph) (aptStage s : State),
        compilePython H g aptStage = (s, none) → g.PyPIPackages = [] →
        ∀ x ∈ s.mergeInputs, ∀ c, x ≠ State.diff c c "install PyPI packages") := by
  intro h
  have hrun : compilePython quietHelpers bareGraph baseStage =
      (State.merge
        [baseStage,
         State.diff baseStage baseStage "install system packages",
         State.diff baseStage baseStage "install conda packages",
         State.diff baseStage baseStage "install ssh keys",
         State.diff baseStage baseStage "install PyPI packages"]
        "merging all components into one", none) := rfl
  exact h quietHelpers bareGraph baseStage _ hrun rfl
    (State.diff baseStage baseStage "install PyPI packages")
    (by simp [State.mergeInputs]) baseStage rfl

/-- C6, amended: only the IDE-extension stage is optional in the merge set. Whenever
`compilePython` succeeds and `indexStage` and `condaEnvStage` have an output, the merge
input list is exactly `indexStage` followed by the four diffs `systemStage`, `condaStage`,
`diffSSHStage` and `pypiStage`, which are there whether or not their component is present
in the graph, and then the stage of the IDE-extension resolver if and only if it returns
one that has an output; with an empty PyPI package list the PyPI entry is the empty
`Diff(condaEnvStage, condaEnvStage)`. -/
theorem compilePython_merge_entries (H : Helpers) (g : Graph) (aptStage s : State)
    (hok : compilePython H g aptStage = (s, none))
    (hidx : (indexStage H g aptStage).hasOutput = true) :
    ∃ sshStage shellStage vscodeStage,
      H.copySSHKey g (indexStage H g aptStage) = (sshStage, none) ∧
      compileShell H g (indexStage H g aptStage) = (shellStage, none) ∧
      H.compileVSCode g = (vscodeStage, none) ∧
      ((H.setCondaENV g shellStage).hasOutput = true →
        s.isMerge = true ∧
        s.mergeInputs =
          [indexStage H g aptStage,
           State.diff (indexStage H g aptStage)
             (H.compileSystemPackages g (indexStage H g aptStage)) "install system packages",
           State.diff (indexStage H g aptStage)
             (H.compileCondaPackages g (H.setCondaENV g shellStage)) "install conda packages",
           State.diff (indexStage H g aptStage) sshStage "install ssh keys",
           State.diff (H.setCondaENV g shellStage)
             (compilePyPIPackages H g (H.setCondaENV g shellStage)) "install PyPI packages"]
          ++ vscodeStage.toList.filter State.hasOutput ∧
        (g.PyPIPackages = [] →
          s.mergeInputs[4]? =
            some (State.diff (H.setCondaENV g shellStage) (H.setCondaENV g shellStage)
              "install PyPI packages"))) := by
  rcases compilePython_cases H g aptStage with ⟨err, _, msg, hfail⟩ | ⟨_, ssh, sh, vs, h1, h2, h3, h4⟩
  · rw [hfail] at hok
    simp at hok
  · rw [h4] at hok
    have hs := (Prod.mk.inj hok).1
    refine ⟨ssh, sh, vs, h1, h2, h3, fun henv => ?_⟩
    rw [← hs, merge_of_output H g _ ssh _ vs hidx henv]
    refine ⟨rfl, by simp [State.mergeInputs], fun hp => ?_⟩
    simp [State.mergeInputs, compilePyPIPackages, hp]

theorem compilePython_merge_entries_witness :
    (compilePython quietHelpers bareGraph baseStage).1.mergeInputs =
      [baseStage,
       State.diff baseStage baseStage "install system packages",
       State.diff baseStage baseStage "install conda packages",
       State.diff baseStage baseStage "install ssh keys",
       State.diff baseStage baseStage "install PyPI packages"] ∧
    (compilePython quietHelpers bareGraph baseStage).1.mergeInputs[4]? =
      some (State.diff baseStage baseStage "install PyPI packages") := by
  obtain ⟨ssh, sh, vs, h1, h2, h3, h4⟩ :=
    compilePython_merge_entries quietHelpers bareGraph baseStage
      (compilePython quietHelpers bareGraph baseStage).1 rfl rfl
  have hssh : baseStage = ssh := congrArg Prod.fst h1
  have hsh : baseStage = sh := congrArg Prod.fst h2
  have hvs : none = vs := congrArg Prod.fst h3
  subst hssh hsh hvs
  exact ⟨(h4 rfl).2.1, (h4 rfl).2.2 rfl⟩

/-! ## The engine contract on the built plan (C5, C7) -/

theorem ops_diff (lower upper : State) (n : String) :
    (State.diff lower upper n).ops = delta lower upper := by
  simp [State.ops, delta]

/-- A state without output stands for no operation. -/
theorem ops_of_no_output : ∀ s : State, s.hasOutput = false → s.ops = []
  | .empty, _ => by simp [State.ops]
  | .user parent _, h => by
    have hp : parent.ops = [] := ops_of_no_output parent (by simpa [State.hasOutput] using h)
    simpa [State.ops] using hp
  | .source _, h => by simp [State.hasOutput] at h
  | .file _ _ _, h => by simp [State.hasOutput] at h
  | .run _ _ _ _, h => by simp [State.hasOutput] at h
  | .diff _ _ _, h => by simp [State.hasOutput] at h
  | .merge _ _, h => by simp [State.hasOutput] at h

/-- What `llb.Diff` returns stands for the delta between its two arguments, also where it
creates no `DiffOp`. -/
theorem ops_llbDiff (lower upper : State) (n : String) :
    (llbDiff lower upper n).ops = delta lower upper := by
  cases hl : lower.hasOutput with
  | true => simp [llbDiff, hl, ops_diff]
  | false =>
    have hlo : lower.ops = [] := ops_of_no_output lower hl
    cases hu : upper.hasOutput with
    | true => simp [llbDiff, hl, hu, delta, hlo]
    | false =>
      have huo : upper.ops = [] := ops_of_no_output upper hu
      simp [llbDiff, hl, hu, delta, hlo, huo, State.ops]

theorem ops_llbDiff_self (s : State) (n : String) : (llbDiff s s n).ops = [] := by
  simp [ops_llbDiff, delta]

theorem ops_merge_cons (x : State) (xs : List State) (n : String) :
    (State.merge (x :: xs) n).ops = x.ops ++ (State.merge xs n).ops := by
  simp [State.ops]

theorem ops_merge_nil (overlays : List State) (n : String)
    (h : ∀ d ∈ overlays, d.ops = []) : (State.merge overlays n).ops = [] := by
  induction overlays with
  | nil => simp [State.ops]
  | cons d ds ih =>
    have hd : d.ops = [] := h d (by simp)
    have hds : (State.merge ds n).ops = [] := ih (fun x hx => h x (by simp [hx]))
    simp [ops_merge_cons, hd, hds]

theorem ops_merge_base (base : State) (overlays : List State) (n : String)
    (h : ∀ d ∈ overlays, d.ops = []) : (State.merge (base :: overlays) n).ops = base.ops := by
  simp [ops_merge_cons, ops_merge_nil overlays n h]

/-- Filtering out the inputs without output does not change what a merge stands for. -/
theorem ops_merge_filter (inputs : List State) (n : String) :
    (State.merge (inputs.filter State.hasOutput) n).ops = (State.merge inputs n).ops := by
  induction inputs with
  | nil => rfl
  | cons x xs ih =>
    cases hx : x.hasOutput with
    | true => simp [List.filter_cons, hx, ops_merge_cons, ih]
    | false => simp [List.filter_cons, hx, ops_merge_cons, ih, ops_of_no_output x hx]

/-- What `llb.Merge` returns stands for the overlay of all its inputs, also where it creates
no `MergeOp`. -/
theorem ops_llbMerge (inputs : List State) (n : String) :
    (llbMerge inputs n).ops = (State.merge inputs n).ops := by
  rw [← ops_merge_filter]
  unfold llbMerge
  split
  next h => rw [h]; simp [State.ops]
  next x h => rw [h]; simp [State.ops]
  next => rfl

theorem ops_llbMerge_base (base : State) (overlays : List State) (n : String)
    (h : ∀ d ∈ overlays, d.ops = []) : (llbMerge (base :: overlays) n).ops = base.ops := by
  rw [ops_llbMerge, ops_merge_base base overlays n h]

theorem drop_initial {a b : List Op} (h : a <+: b) (k : Nat) : a.drop k <+: b.drop k := by
  obtain ⟨t, rfl⟩ := h
  rw [List.drop_append_eq_append_drop]
  exact List.prefix_append _ _

theorem delta_initial (lower : State) {mid upper : State} (h : mid.ops <+: upper.ops) :
    delta lower mid <+: delta lower upper :=
  drop_initial h _

/-- The operations of the stage `compileShell` returns: those of its input, followed by the
four zsh operations when the shell is zsh. -/
theorem compileShell_ops (H : Helpers) (g : Graph) (root shellStage : State)
    (h : compileShell H g root = (shellStage, none)) :
    shellStage.ops = root.ops ++ (if g.Shell = shellZSH then zshOps H g else []) := by
  have hcmd : sprintf "bash %s" ["/home/envd/install.sh"] = "bash /home/envd/install.sh" := by
    decide
  by_cases hz : g.Shell = shellZSH
  · rcases hd : H.DownloadOrCache with ⟨cacheHit, _ | err⟩
    · simp only [compileShell, hz, if_true, compileZSH, hd, hcmd] at h
      have hs := (Prod.mk.inj h).1
      subst hs
      simp [State.ops, zshOps, hz]
    · simp [compileShell, hz, compileZSH, hd] at h
  · simp only [compileShell, hz, if_false] at h
    have hs := (Prod.mk.inj h).1
    subst hs
    simp [hz]

/-- C5, as stated, fails: with shell = zsh the conda-package delta that `compilePython`
puts in the merge contains the run of the zsh install script, an operation `compileShell`
applied on top of `indexStage`. -/
theorem condaStage_shell_ops_counterexample :
    ¬ (∀ (H : Helpers) (g : Graph) (aptStage s shellStage c : State),
        compilePython H g aptStage = (s, none) →
        compileShell H g (indexStage H g aptStage) = (shellStage, none) →
        s.mergeInputs[2]? = some c →
        ∀ op ∈ delta (indexStage H g aptStage) (H.setCondaENV g shellStage), op ∉ c.ops) := by
  intro h
  have hshell : compileShell quietHelpers zshGraph (indexStage quietHelpers zshGraph baseStage) =
      ((compileZSH quietHelpers zshGraph baseStage).1, none) := rfl
  have hrun : compilePython quietHelpers zshGraph baseStage =
      (State.merge
        [baseStage,
         State.diff baseStage baseStage "install system packages",
         State.diff baseStage (compileZSH quietHelpers zshGraph baseStage).1
           "install conda packages",
         State.diff baseStage baseStage "install ssh keys",
         State.diff (compileZSH quietHelpers zshGraph baseStage).1
           (compileZSH quietHelpers zshGraph baseStage).1 "install PyPI packages"]
        "merging all components into one", none) := rfl
  have hops : (compileZSH quietHelpers zshGraph baseStage).1.ops =
      baseStage.ops ++ zshOps quietHelpers zshGraph := by
    have := compileShell_ops quietHelpers zshGraph baseStage _ hshell
    simpa [zshGraph] using this
  have hbase : baseStage.ops = [Op.base "apt"] := by simp [baseStage, State.ops]
  refine h quietHelpers zshGraph baseStage _ _
    (State.diff baseStage (compileZSH quietHelpers zshGraph baseStage).1
      "install conda packages") hrun hshell rfl
    (Op.exec "bash /home/envd/install.sh") ?_ ?_
  · show Op.exec "bash /home/envd/install.sh" ∈
      delta baseStage (compileZSH quietHelpers zshGraph baseStage).1
    simp [delta, hops, hbase, zshOps]
  · rw [ops_diff]
    simp [delta, hops, hbase, zshOps]

/-- C5, amended: the conda-package delta is taken from `indexStage` to a stage built on
top of `shellStage`, so it includes the shell and environment customizations. Whenever
`setCondaENV` and `compileCondaPackages` only add operations on top of their input, every
operation that `compileShell` and `setCondaENV` apply on top of `indexStage` is part of
`condaStage`, in order and ahead of the conda-package operations; with shell = zsh these
start with the framework copy, the install-script write, the run of the install script and
the run-control write. `condaStage` is the third stage handed to `llb.Merge`, and the third
input of the merge when `indexStage` has an output. -/
theorem condaStage_includes_shell_ops (H : Helpers) (g : Graph) (aptStage s : State)
    (hok : compilePython H g aptStage = (s, none))
    (henv : ∀ t, t.ops <+: (H.setCondaENV g t).ops)
    (hconda : ∀ t, t.ops <+: (H.compileCondaPackages g t).ops) :
    ∃ (sshStage shellStage : State) (vscodeStage : Option State) (c : State),
      compileShell H g (indexStage H g aptStage) = (shellStage, none) ∧
      c = llbDiff (indexStage H g aptStage)
        (H.compileCondaPackages g (H.setCondaENV g shellStage)) "install conda packages" ∧
      s = llbMerge
        ([indexStage H g aptStage,
          llbDiff (indexStage H g aptStage)
            (H.compileSystemPackages g (indexStage H g aptStage)) "install system packages",
          c,
          llbDiff (indexStage H g aptStage) sshStage "install ssh keys",
          llbDiff (H.setCondaENV g shellStage)
            (compilePyPIPackages H g (H.setCondaENV g shellStage)) "install PyPI packages"]
          ++ vscodeStage.toList)
        "merging all components into one" ∧
      ((indexStage H g aptStage).hasOutput = true → s.mergeInputs[2]? = some c) ∧
      delta (indexStage H g aptStage) (H.setCondaENV g shellStage) <+: c.ops ∧
      (g.Shell = shellZSH → zshOps H g <+: c.ops) := by
  rcases compilePython_cases H g aptStage with ⟨err, _, msg, hfail⟩ | ⟨_, ssh, sh, vs, h1, h2, h3, h4⟩
  · rw [hfail] at hok
    simp at hok
  · rw [h4] at hok
    have hs := (Prod.mk.inj hok).1
    have hmain : delta (indexStage H g aptStage) (H.setCondaENV g sh) <+:
        (llbDiff (indexStage H g aptStage)
          (H.compileCondaPackages g (H.setCondaENV g sh)) "install conda packages").ops := by
      rw [ops_llbDiff]
      exact delta_initial _ (hconda _)
    refine ⟨ssh, sh, vs, _, h2, rfl, hs.symm, fun hidx => ?_, hmain, fun hz => ?_⟩
    · rw [← hs]
      simp [llbMerge, List.filter_cons, hidx, hasOutput_llbDiff hidx]
      split <;> simp [State.mergeInputs]
    · have hsh := compileShell_ops H g _ sh h2
      simp only [hz, if_true] at hsh
      have hzsh : zshOps H g = delta (indexStage H g aptStage) sh := by
        simp [delta, hsh]
      rw [hzsh]
      exact (delta_initial _ (henv sh)).trans hmain

theorem condaStage_includes_shell_ops_witness :
    ∃ c, (compilePython quietHelpers zshGraph baseStage).1.mergeInputs[2]? = some c ∧
      zshOps quietHelpers zshGraph <+: c.ops ∧
      Op.exec "bash /home/envd/install.sh" ∈ zshOps quietHelpers zshGraph := by
  obtain ⟨_, _, _, c, _, _, _, hpos, _, hz⟩ :=
    condaStage_includes_shell_ops quietHelpers zshGraph baseStage
      (compilePython quietHelpers zshGraph baseStage).1 rfl
      (fun _ => List.prefix_refl _) (fun _ => List.prefix_refl _)
  exact ⟨c, hpos rfl, hz rfl, by simp [zshOps]⟩

/-- C7: for a graph with shell = none and an empty PyPI package list whose notebook
preparer succeeds, whose IDE-extension resolver returns no stage and whose install and copy
helpers return their input stage unchanged, `compilePython` succeeds and, under the engine
laws `Diff(s, s) = empty` and "merging empty diffs onto a base gives the base", its final
stage is identical to `indexStage`. The laws are stated for the builders `llb.Diff` and
`llb.Merge` that the code calls. -/
theorem compilePython_identity {α : Type} (sem : State → α) (emp : α)
    (hdiff : ∀ s n, sem (llbDiff s s n) = emp)
    (hmerge : ∀ base overlays n, (∀ d ∈ overlays, sem d = emp) →
      sem (llbMerge (base :: overlays) n) = sem base)
    (H : Helpers) (g : Graph) (aptStage : State)
    (hshell : g.Shell = shellNone) (hpk : g.PyPIPackages = [])
    (hjup : H.compileJupyter g = none)
    (hssh : ∀ t, H.copySSHKey g t = (t, none))
    (hvs : H.compileVSCode g = (none, none))
    (henv : ∀ t, H.setCondaENV g t = t)
    (hconda : ∀ t, H.compileCondaPackages g t = t)
    (hsys : ∀ t, H.compileSystemPackages g t = t) :
    (compilePython H g aptStage).2 = none ∧
    sem (compilePython H g aptStage).1 = sem (indexStage H g aptStage) := by
  have hrun : compilePython H g aptStage =
      (llbMerge
        [indexStage H g aptStage,
         llbDiff (indexStage H g aptStage) (indexStage H g aptStage) "install system packages",
         llbDiff (indexStage H g aptStage) (indexStage H g aptStage) "install conda packages",
         llbDiff (indexStage H g aptStage) (indexStage H g aptStage) "install ssh keys",
         llbDiff (indexStage H g aptStage) (indexStage H g aptStage) "install PyPI packages"]
        "merging all components into one", none) := by
    simp [compilePython, indexStage, hjup, hssh, compileShell, hshell, hvs, henv, hconda, hsys,
      compilePyPIPackages, hpk]
  rw [hrun]
  refine ⟨rfl, hmerge _ _ _ ?_⟩
  intro d hd
  simp only [List.mem_cons, List.mem_singleton, List.not_mem_nil, or_false] at hd
  rcases hd with rfl | rfl | rfl | rfl <;> exact hdiff _ _

theorem compilePython_identity_witness :
    (compilePython quietHelpers bareGraph baseStage).2 = none ∧
    (compilePython quietHelpers bareGraph baseStage).1.ops =
      (indexStage quietHelpers bareGraph baseStage).ops :=
  compilePython_identity State.ops [] ops_llbDiff_self ops_llbMerge_base
    quietHelpers bareGraph baseStage rfl rfl rfl (fun _ => rfl) rfl
    (fun _ => rfl) (fun _ => rfl) (fun _ => rfl)

end Envd
